import Mathlib

/-!
Verification of the rustdoc-IR traversal engine in `src/visit.rs`.

The file embeds, as a shallow Lean model:
  * the fragment of the `rustdoc_types` IR that the walkers consume
    (mutually inductive grammar of items, types, paths, generics, …);
  * the `Visitor` capability (two hooks, `visit_path` and `visit_use`);
  * every walker function of `src/visit.rs`, as state-passing functions
    generic over the visitor's state type; the single panic site
    (`ItemEnum::ExternType => todo!()`) is modelled by `visit_item`
    returning `Option`, with `none` for the panic.

The observable behaviour of a traversal is the ordered sequence of hook
invocations; it is obtained by instantiating the walkers at the
event-recording visitor `recorder`.  A family of bridge lemmas
(`visit_type_events`, …) proves that running any walker with any visitor
equals replaying that recorded event trace through the visitor's hooks,
which lets order/coverage properties be stated once, over all visitors.
-/

set_option maxHeartbeats 1000000

namespace Rustdoc

/-- Opaque identifier of an item (`rustdoc_types::Id`); the engine never
dereferences it. -/
abbrev Id := Nat

/-- Opaque constant expression (`rustdoc_types::Constant`); the walkers never
inspect it. -/
abbrev ConstantExpr := String

/-- Opaque lifetime name; the walkers never inspect it. -/
abbrev Lifetime := String

/-- Opaque trait-bound modifier (`rustdoc_types::TraitBoundModifier`); ignored
by `visit_generic_bound`. -/
abbrev TraitBoundModifier := String

mutual

/-- `rustdoc_types::Type` (named `Ty` here because `Type` is a Lean keyword). -/
inductive Ty where
  | ResolvedPath (path : Path)
  | DynTrait (dyn_trait : DynTraitTy)
  | Generic (name : String)
  | Primitive (name : String)
  | FunctionPointer (fn_pointer : FunctionPointerTy)
  | Tuple (types : List Ty)
  | Slice (type_ : Ty)
  | Array (type_ : Ty) (len : ConstantExpr)
  | ImplTrait (bounds : List GenericBound)
  | Infer
  | RawPointer (is_mutable : Bool) (type_ : Ty)
  | BorrowedRef (is_mutable : Bool) (lifetime : Option Lifetime) (type_ : Ty)
  | QualifiedPath (name : String) (args : Option GenericArgs) (self_type : Ty)
      (trait_ : Option Path)
  | Pat (type_ : Ty) (pat : ConstantExpr)

/-- `rustdoc_types::Path`: a name, an opaque id (never dereferenced), and
optionally attached generic arguments. -/
inductive Path where
  | mk (path : String) (id : Id) (args : Option GenericArgs)

/-- `rustdoc_types::GenericArgs`. -/
inductive GenericArgs where
  | AngleBracketed (args : List GenericArg) (constraints : List AssocItemConstraint)
  | Parenthesized (inputs : List Ty) (output : Option Ty)
  | ReturnTypeNotated

/-- `rustdoc_types::GenericArg`. -/
inductive GenericArg where
  | Lifetime (lt : Lifetime)
  | TypeArg (type_ : Ty)
  | Const (c : ConstantExpr)
  | Infer

/-- `rustdoc_types::AssocItemConstraint`. -/
inductive AssocItemConstraint where
  | mk (name : String) (args : Option GenericArgs) (binding : AssocItemConstraintKind)

/-- `rustdoc_types::AssocItemConstraintKind`. -/
inductive AssocItemConstraintKind where
  | Equality (term : Term)
  | Constraint (bounds : List GenericBound)

/-- `rustdoc_types::Term`. -/
inductive Term where
  | TypeTerm (type_ : Ty)
  | Constant (c : ConstantExpr)

/-- `rustdoc_types::GenericBound`. -/
inductive GenericBound where
  | TraitBound (trait_ : Path) (generic_params : List GenericParamDef)
      (modifier : TraitBoundModifier)
  | Outlives (lt : Lifetime)
  | UseBound (names : List String)

/-- `rustdoc_types::GenericParamDef`. -/
inductive GenericParamDef where
  | mk (name : String) (kind : GenericParamDefKind)

/-- `rustdoc_types::GenericParamDefKind`. -/
inductive GenericParamDefKind where
  | Lifetime (outlives : List Lifetime)
  | TypeParam (is_synthetic : Bool) (bounds : List GenericBound) (default : Option Ty)
  | Const (type_ : Ty) (default : Option ConstantExpr)

/-- `rustdoc_types::WherePredicate`. -/
inductive WherePredicate where
  | BoundPredicate (type_ : Ty) (bounds : List GenericBound)
      (generic_params : List GenericParamDef)
  | EqPredicate (lhs : Ty) (rhs : Term)
  | LifetimePredicate (lifetime : Lifetime) (outlives : List Lifetime)

/-- `rustdoc_types::Generics`. -/
inductive Generics where
  | mk (params : List GenericParamDef) (where_predicates : List WherePredicate)

/-- One `(name, type)` entry of `FunctionSignature::inputs`. -/
inductive FnInput where
  | mk (name : String) (type_ : Ty)

/-- `rustdoc_types::FunctionSignature`. -/
inductive FunctionSignature where
  | mk (is_c_variadic : Bool) (inputs : List FnInput) (output : Option Ty)

/-- `rustdoc_types::FunctionPointer` (suffixed `Ty` to avoid clashing with the
`Ty.FunctionPointer` constructor). -/
inductive FunctionPointerTy where
  | mk (sig : FunctionSignature) (generic_params : List GenericParamDef)
      (header : String)

/-- `rustdoc_types::DynTrait` (suffixed `Ty` to avoid clashing with the
`Ty.DynTrait` constructor). -/
inductive DynTraitTy where
  | mk (traits : List PolyTrait) (lifetime : Option Lifetime)

/-- `rustdoc_types::PolyTrait`. -/
inductive PolyTrait where
  | mk (trait_ : Path) (generic_params : List GenericParamDef)

end

/-- Field accessor for `Path`. -/
def Path.args : Path → Option GenericArgs
  | .mk _ _ a => a

/-- `rustdoc_types::Use` (the re-export item payload); `visit_item` hands it to
the re-export hook without inspecting it. -/
structure UseItem where
  source : String
  name : String
  id : Option Id
  is_glob : Bool

/-- `rustdoc_types::Static`. -/
structure Static where
  is_mutable : Bool
  is_unsafe_ : Bool
  type_ : Ty
  expr : ConstantExpr

/-- `rustdoc_types::TraitAlias`. -/
structure TraitAlias where
  generics : Generics
  params : List GenericBound

/-- `rustdoc_types::Trait`. -/
structure TraitItem where
  is_auto : Bool
  is_unsafe_ : Bool
  is_dyn_compatible : Bool
  items : List Id
  generics : Generics
  bounds : List GenericBound
  implementations : List Id

/-- `rustdoc_types::Enum`. -/
structure EnumItem where
  generics : Generics
  has_stripped_variants : Bool
  variants : List Id
  impls : List Id

/-- `rustdoc_types::Union`. -/
structure UnionItem where
  generics : Generics
  has_stripped_fields : Bool
  fields : List Id
  impls : List Id

/-- `rustdoc_types::Impl`.  `blanket_impl` is the provenance marker: `some`
when the impl was synthesized from a foreign blanket implementation. -/
structure Impl where
  is_unsafe_ : Bool
  is_negative : Bool
  is_synthetic : Bool
  generics : Generics
  provided_trait_methods : List String
  trait_ : Option Path
  for_ : Ty
  items : List Id
  blanket_impl : Option Ty

/-- `rustdoc_types::TypeAlias`. -/
structure TypeAlias where
  type_ : Ty
  generics : Generics

/-- `rustdoc_types::StructKind`. -/
inductive StructKind where
  | Unit
  | Tuple (fields : List (Option Id))
  | Plain (fields : List Id) (has_stripped_fields : Bool)

/-- `rustdoc_types::Struct`. -/
structure StructItem where
  kind : StructKind
  generics : Generics
  impls : List Id

/-- `rustdoc_types::Function`. -/
structure FunctionItem where
  sig : FunctionSignature
  generics : Generics
  header : String
  has_body : Bool

/-- `rustdoc_types::Module`; never inspected by the walkers. -/
structure ModuleItem where
  is_crate : Bool
  items : List Id
  is_stripped : Bool

/-- Opaque payload of `ItemEnum::Variant`; never inspected. -/
abbrev VariantItem := String

/-- Opaque payload of `ItemEnum::Primitive`; never inspected. -/
abbrev PrimitiveItem := String

/-- Opaque payload of `ItemEnum::ProcMacro`; never inspected. -/
abbrev ProcMacroItem := String

/-- `rustdoc_types::ItemEnum`: the tagged union of item kinds. -/
inductive ItemEnum where
  | Function (fun_ : FunctionItem)
  | Struct (struct_ : StructItem)
  | StructField (field_type : Ty)
  | AssocType (generics : Generics) (bounds : List GenericBound) (type_ : Option Ty)
  | AssocConst (type_ : Ty) (value : Option ConstantExpr)
  | Impl (impl_ : Impl)
  | TypeAlias (type_alias : TypeAlias)
  | Union (union_ : UnionItem)
  | Enum (enum_ : EnumItem)
  | Trait (trait_ : TraitItem)
  | TraitAlias (trait_alias : TraitAlias)
  | Constant (type_ : Ty) (const_ : ConstantExpr)
  | Static (static_ : Static)
  | Use (use_ : UseItem)
  | Module (m : ModuleItem)
  | Variant (v : VariantItem)
  | ExternCrate (name : String) (rename : Option String)
  | ExternType
  | Primitive (p : PrimitiveItem)
  | ProcMacro (p : ProcMacroItem)
  | Macro (m : String)

/-- `rustdoc_types::Item`; metadata fields the walkers never read (span,
visibility, docs, links, attrs, deprecation) are elided. -/
structure Item where
  id : Id
  crate_id : Nat
  name : Option String
  inner : ItemEnum

/-- The `Visitor` trait of `src/visit.rs`: two hooks over a caller-chosen
state type `σ` (the Rust `&mut self` receiver becomes explicit state). -/
structure Visitor (σ : Type) where
  visit_path : σ → Path → σ
  visit_use : σ → UseItem → σ

/-- One observable hook invocation. -/
inductive Event where
  | onPath (p : Path)
  | onReexport (u : UseItem)

/-- The event-recording visitor: its state is the list of hook invocations
made so far, in order. -/
def recorder : Visitor (List Event) where
  visit_path := fun s p => s ++ [Event.onPath p]
  visit_use := fun s u => s ++ [Event.onReexport u]

/-- Replay a list of recorded hook invocations through a visitor. -/
def applyEvents {σ : Type} (v : Visitor σ) : σ → List Event → σ
  | s, [] => s
  | s, Event.onPath p :: es => applyEvents v (v.visit_path s p) es
  | s, Event.onReexport u :: es => applyEvents v (v.visit_use s u) es

mutual

/-- `fn visit_fn_sig` (`src/visit.rs:179`): walk each input's type, then the
optional output type, in declaration order; names and the variadic flag are
ignored. -/
def visit_fn_sig {σ : Type} (v : Visitor σ) : FunctionSignature → σ → σ
  | .mk _is_c_variadic inputs output, s =>
    visit_type_opt v output (visit_fn_input_list v inputs s)

/-- The `for (_, ty) in inputs` loop of `visit_fn_sig`. -/
def visit_fn_input_list {σ : Type} (v : Visitor σ) : List FnInput → σ → σ
  | [], s => s
  | .mk _ ty :: rest, s => visit_fn_input_list v rest (visit_type v ty s)

/-- `fn visit_generics` (`src/visit.rs:193`): params, then where-predicates. -/
def visit_generics {σ : Type} (v : Visitor σ) : Generics → σ → σ
  | .mk params where_predicates, s =>
    visit_where_predicate_list v where_predicates
      (visit_generic_param_def_list v params s)

/-- The `for param in params` loops over `GenericParamDef` lists. -/
def visit_generic_param_def_list {σ : Type} (v : Visitor σ) :
    List GenericParamDef → σ → σ
  | [], s => s
  | p :: rest, s => visit_generic_param_def_list v rest (visit_generic_param_def v p s)

/-- `fn visit_generic_param_def` (`src/visit.rs:206`): the name is ignored,
the kind is walked. -/
def visit_generic_param_def {σ : Type} (v : Visitor σ) : GenericParamDef → σ → σ
  | .mk _name kind, s => visit_generic_param_def_kind v kind s

/-- The `for where_predicate in where_predicates` loop of `visit_generics`. -/
def visit_where_predicate_list {σ : Type} (v : Visitor σ) :
    List WherePredicate → σ → σ
  | [], s => s
  | p :: rest, s => visit_where_predicate_list v rest (visit_where_predicate v p s)

/-- `fn visit_where_predicate` (`src/visit.rs:211`): bound predicates walk the
bounded type, the bounds, then the local generic params; equality predicates
walk lhs type then rhs term; lifetime predicates are ignored. -/
def visit_where_predicate {σ : Type} (v : Visitor σ) : WherePredicate → σ → σ
  | .BoundPredicate type_ bounds generic_params, s =>
    visit_generic_param_def_list v generic_params
      (visit_generic_bound_list v bounds (visit_type v type_ s))
  | .EqPredicate lhs rhs, s => visit_term v rhs (visit_type v lhs s)
  | .LifetimePredicate _ _, s => s

/-- `fn visit_generic_param_def_kind` (`src/visit.rs:235`): lifetimes are
ignored; type params walk bounds then optional default; const params walk the
type only, the default value is ignored. -/
def visit_generic_param_def_kind {σ : Type} (v : Visitor σ) :
    GenericParamDefKind → σ → σ
  | .Lifetime _outlives, s => s
  | .TypeParam _is_synthetic bounds default, s =>
    visit_type_opt v default (visit_generic_bound_list v bounds s)
  | .Const type_ _default, s => visit_type v type_ s

/-- The `for bound in bounds` loops over `GenericBound` lists. -/
def visit_generic_bound_list {σ : Type} (v : Visitor σ) : List GenericBound → σ → σ
  | [], s => s
  | b :: rest, s => visit_generic_bound_list v rest (visit_generic_bound v b s)

/-- `fn visit_generic_bound` (`src/visit.rs:256`): trait bounds walk the trait
path then the per-bound generic params (the modifier is ignored); outlives and
use bounds are ignored. -/
def visit_generic_bound {σ : Type} (v : Visitor σ) : GenericBound → σ → σ
  | .TraitBound trait_ generic_params _modifier, s =>
    visit_generic_param_def_list v generic_params (visit_path v trait_ s)
  | .Outlives _, s => s
  | .UseBound _, s => s

/-- `fn visit_term` (`src/visit.rs:273`): type terms are walked, constant
terms are ignored. -/
def visit_term {σ : Type} (v : Visitor σ) : Term → σ → σ
  | .TypeTerm type_, s => visit_type v type_ s
  | .Constant _, s => s

/-- `fn visit_path` (`src/visit.rs:280`): invoke the `visit_path` hook on the
path itself, then recurse into its attached generic arguments if present. -/
def visit_path {σ : Type} (v : Visitor σ) : Path → σ → σ
  | .mk path id args, s =>
    visit_generic_args_opt v args (v.visit_path s (.mk path id args))

/-- The `if let Some(args)` pattern around `visit_generic_args`. -/
def visit_generic_args_opt {σ : Type} (v : Visitor σ) : Option GenericArgs → σ → σ
  | none, s => s
  | some args, s => visit_generic_args v args s

/-- `fn visit_generic_args` (`src/visit.rs:292`): angle-bracketed args walk
the ordered arguments then the associated-item constraints; parenthesized args
walk the input types then the optional output type; the return-type-notated
marker is ignored. -/
def visit_generic_args {σ : Type} (v : Visitor σ) : GenericArgs → σ → σ
  | .AngleBracketed args constraints, s =>
    visit_assoc_item_constraint_list v constraints (visit_generic_arg_list v args s)
  | .Parenthesized inputs output, s =>
    visit_type_opt v output (visit_type_list v inputs s)
  | .ReturnTypeNotated, s => s

/-- The `for arg in args` loop of `visit_generic_args`. -/
def visit_generic_arg_list {σ : Type} (v : Visitor σ) : List GenericArg → σ → σ
  | [], s => s
  | a :: rest, s => visit_generic_arg_list v rest (visit_generic_arg v a s)

/-- The `for constraint in constraints` loop of `visit_generic_args`. -/
def visit_assoc_item_constraint_list {σ : Type} (v : Visitor σ) :
    List AssocItemConstraint → σ → σ
  | [], s => s
  | c :: rest, s =>
    visit_assoc_item_constraint_list v rest (visit_assoc_item_constraint v c s)

/-- `fn visit_assoc_item_constraint` (`src/visit.rs:314`): walk the optional
attached generic args, then the constraint kind. -/
def visit_assoc_item_constraint {σ : Type} (v : Visitor σ) :
    AssocItemConstraint → σ → σ
  | .mk _name args binding, s =>
    visit_assoc_item_constraint_kind v binding (visit_generic_args_opt v args s)

/-- `fn visit_assoc_item_constraint_kind` (`src/visit.rs:326`). -/
def visit_assoc_item_constraint_kind {σ : Type} (v : Visitor σ) :
    AssocItemConstraintKind → σ → σ
  | .Equality term, s => visit_term v term s
  | .Constraint bounds, s => visit_generic_bound_list v bounds s

/-- `fn visit_generic_arg` (`src/visit.rs:337`): only type arguments are
walked; lifetime, constant and inferred arguments are ignored. -/
def visit_generic_arg {σ : Type} (v : Visitor σ) : GenericArg → σ → σ
  | .Lifetime _, s => s
  | .TypeArg type_, s => visit_type v type_ s
  | .Const _, s => s
  | .Infer, s => s

/-- `fn visit_type` (`src/visit.rs:346`): recurse into exactly the structural
children of each variant; `Generic`, `Primitive` and `Infer` are leaves; the
length of an `Array` and the pattern of a `Pat` are ignored. -/
def visit_type {σ : Type} (v : Visitor σ) : Ty → σ → σ
  | .ResolvedPath path, s => visit_path v path s
  | .DynTrait dyn_trait, s => visit_dyn_trait v dyn_trait s
  | .Generic _, s => s
  | .Primitive _, s => s
  | .FunctionPointer fn_pointer, s => visit_function_pointer v fn_pointer s
  | .Tuple types, s => visit_type_list v types s
  | .Slice type_, s => visit_type v type_ s
  | .Array type_ _len, s => visit_type v type_ s
  | .ImplTrait bounds, s => visit_generic_bound_list v bounds s
  | .Infer, s => s
  | .RawPointer _is_mutable type_, s => visit_type v type_ s
  | .BorrowedRef _is_mutable _lifetime type_, s => visit_type v type_ s
  | .QualifiedPath _name args self_type trait_, s =>
    visit_path_opt v trait_ (visit_type v self_type (visit_generic_args_opt v args s))
  | .Pat type_ _, s => visit_type v type_ s

/-- The `for type_ in types` loops over `Ty` lists (tuples, parenthesized
inputs). -/
def visit_type_list {σ : Type} (v : Visitor σ) : List Ty → σ → σ
  | [], s => s
  | t :: rest, s => visit_type_list v rest (visit_type v t s)

/-- The `if let Some(type_)` pattern around `visit_type`. -/
def visit_type_opt {σ : Type} (v : Visitor σ) : Option Ty → σ → σ
  | none, s => s
  | some t, s => visit_type v t s

/-- The `if let Some(trait_)` pattern around `visit_path`. -/
def visit_path_opt {σ : Type} (v : Visitor σ) : Option Path → σ → σ
  | none, s => s
  | some p, s => visit_path v p s

/-- `fn visit_function_pointer` (`src/visit.rs:395`): walk the signature, then
the generic params; the header is ignored. -/
def visit_function_pointer {σ : Type} (v : Visitor σ) : FunctionPointerTy → σ → σ
  | .mk sig generic_params _header, s =>
    visit_generic_param_def_list v generic_params (visit_fn_sig v sig s)

/-- `fn visit_dyn_trait` (`src/visit.rs:407`): walk each poly-trait; the
lifetime is ignored. -/
def visit_dyn_trait {σ : Type} (v : Visitor σ) : DynTraitTy → σ → σ
  | .mk traits _lifetime, s => visit_poly_trait_list v traits s

/-- The `for trait_ in traits` loop of `visit_dyn_trait`. -/
def visit_poly_trait_list {σ : Type} (v : Visitor σ) : List PolyTrait → σ → σ
  | [], s => s
  | t :: rest, s => visit_poly_trait_list v rest (visit_poly_trait v t s)

/-- `fn visit_poly_trait` (`src/visit.rs:417`): walk the trait path, then the
per-trait generic params. -/
def visit_poly_trait {σ : Type} (v : Visitor σ) : PolyTrait → σ → σ
  | .mk trait_ generic_params, s =>
    visit_generic_param_def_list v generic_params (visit_path v trait_ s)

end

/-- `fn visit_static` (`src/visit.rs:64`): walk the type only. -/
def visit_static {σ : Type} (v : Visitor σ) (static_ : Static) (s : σ) : σ :=
  visit_type v static_.type_ s

/-- `fn visit_trait_alias` (`src/visit.rs:74`): generics, then the bound
list. -/
def visit_trait_alias {σ : Type} (v : Visitor σ) (trait_alias : TraitAlias)
    (s : σ) : σ :=
  visit_generic_bound_list v trait_alias.params (visit_generics v trait_alias.generics s)

/-- `fn visit_trait` (`src/visit.rs:82`): generics, then the supertrait
bounds; member items and implementations are ignored (identifier
cross-references). -/
def visit_trait {σ : Type} (v : Visitor σ) (trait_ : TraitItem) (s : σ) : σ :=
  visit_generic_bound_list v trait_.bounds (visit_generics v trait_.generics s)

/-- `fn visit_enum` (`src/visit.rs:98`): generics only. -/
def visit_enum {σ : Type} (v : Visitor σ) (enum_ : EnumItem) (s : σ) : σ :=
  visit_generics v enum_.generics s

/-- `fn visit_union` (`src/visit.rs:108`): generics only. -/
def visit_union {σ : Type} (v : Visitor σ) (union_ : UnionItem) (s : σ) : σ :=
  visit_generics v union_.generics s

/-- `fn visit_impl` (`src/visit.rs:118`): a blanket impl is skipped entirely;
otherwise generics, then the optional trait path, then the self type. -/
def visit_impl {σ : Type} (v : Visitor σ) (impl_ : Impl) (s : σ) : σ :=
  match impl_.blanket_impl with
  | some _ => s
  | none =>
    visit_type v impl_.for_ (visit_path_opt v impl_.trait_ (visit_generics v impl_.generics s))

/-- `fn visit_type_alias` (`src/visit.rs:141`): the aliased type, then
generics. -/
def visit_type_alias {σ : Type} (v : Visitor σ) (type_alias : TypeAlias)
    (s : σ) : σ :=
  visit_generics v type_alias.generics (visit_type v type_alias.type_ s)

/-- `fn visit_struct_kind` (`src/visit.rs:157`): a no-op in every case (field
types are reached via separate struct-field items, not inline). -/
def visit_struct_kind {σ : Type} (_v : Visitor σ) (kind : StructKind) (s : σ) : σ :=
  match kind with
  | .Unit => s
  | .Tuple _ => s
  | .Plain _ _ => s

/-- `fn visit_struct` (`src/visit.rs:147`): struct kind, then generics. -/
def visit_struct {σ : Type} (v : Visitor σ) (struct_ : StructItem) (s : σ) : σ :=
  visit_generics v struct_.generics (visit_struct_kind v struct_.kind s)

/-- `fn visit_function` (`src/visit.rs:168`): the signature, then generics. -/
def visit_function {σ : Type} (v : Visitor σ) (fun_ : FunctionItem) (s : σ) : σ :=
  visit_generics v fun_.generics (visit_fn_sig v fun_.sig s)

/-- `fn visit_item` (`src/visit.rs:19`): the dispatcher.  All supported kinds
return `some`; the unsupported `ExternType` kind hits `todo!()`, modelled as
`none` (panic / fatal abort). -/
def visit_item {σ : Type} (v : Visitor σ) (item : Item) (s : σ) : Option σ :=
  match item.inner with
  | .Function fun_ => some (visit_function v fun_ s)
  | .Struct struct_ => some (visit_struct v struct_ s)
  | .StructField field_type => some (visit_type v field_type s)
  | .AssocType generics bounds type_ =>
    some (visit_type_opt v type_ (visit_generic_bound_list v bounds (visit_generics v generics s)))
  | .AssocConst type_ _value => some (visit_type v type_ s)
  | .Impl impl_ => some (visit_impl v impl_ s)
  | .TypeAlias type_alias => some (visit_type_alias v type_alias s)
  | .Union union_ => some (visit_union v union_ s)
  | .Enum enum_ => some (visit_enum v enum_ s)
  | .Trait trait_ => some (visit_trait v trait_ s)
  | .TraitAlias trait_alias => some (visit_trait_alias v trait_alias s)
  | .Constant type_ _const => some (visit_type v type_ s)
  | .Static static_ => some (visit_static v static_ s)
  | .Use use_ => some (v.visit_use s use_)
  | .Module _ => some s
  | .Variant _ => some s
  | .ExternCrate _ _ => some s
  | .ExternType => none
  | .Primitive _ => some s
  | .ProcMacro _ => some s
  | .Macro _ => some s

/-- Replaying a concatenation of traces replays the pieces in order. -/
theorem applyEvents_append {σ : Type} (v : Visitor σ) (s : σ) (es₁ es₂ : List Event) :
    applyEvents v s (es₁ ++ es₂) = applyEvents v (applyEvents v s es₁) es₂ := by
  induction es₁ generalizing s with
  | nil => rfl
  | cons e es ih => cases e <;> simp only [List.cons_append, applyEvents] <;> exact ih _

/-- Replaying a trace through the recorder appends it to the state. -/
theorem applyEvents_recorder (s es : List Event) :
    applyEvents recorder s es = s ++ es := by
  induction es generalizing s with
  | nil => simp [applyEvents]
  | cons e es ih =>
    cases e <;> rw [applyEvents, ih] <;> simp [recorder, List.append_assoc]

/-- Composing two walkers that replay their recorded traces again replays the
recorded trace of the composition. -/
theorem events_comp {f g : (σ : Type) → Visitor σ → σ → σ}
    (hf : ∀ (σ : Type) (v : Visitor σ) (s : σ),
      f σ v s = applyEvents v s (f (List Event) recorder []))
    (hg : ∀ (σ : Type) (v : Visitor σ) (s : σ),
      g σ v s = applyEvents v s (g (List Event) recorder [])) :
    ∀ (σ : Type) (v : Visitor σ) (s : σ),
      g σ v (f σ v s) =
        applyEvents v s (g (List Event) recorder (f (List Event) recorder [])) := by
  intro σ v s
  rw [hf σ v s, hg σ v (applyEvents v s (f (List Event) recorder [])),
    hg (List Event) recorder (f (List Event) recorder []),
    applyEvents_recorder, ← applyEvents_append]

/-- Invoking the path hook directly replays the one-event trace the recorder
collects for it. -/
theorem hook_path_events (p : Path) :
    ∀ (σ : Type) (v : Visitor σ) (s : σ),
      v.visit_path s p = applyEvents v s (recorder.visit_path [] p) := by
  intro σ v s
  rfl

mutual

/-- Bridge: `visit_fn_sig` with any visitor replays its recorded trace. -/
theorem visit_fn_sig_events (x : FunctionSignature) :
    ∀ (σ : Type) (v : Visitor σ) (s : σ),
      visit_fn_sig v x s = applyEvents v s (visit_fn_sig recorder x []) := by
  cases x with
  | mk c inputs output =>
    intro σ v s
    rw [visit_fn_sig, visit_fn_sig]
    exact events_comp (visit_fn_input_list_events inputs)
      (visit_type_opt_events output) σ v s

/-- Bridge for the input-list loop of `visit_fn_sig`. -/
theorem visit_fn_input_list_events (x : List FnInput) :
    ∀ (σ : Type) (v : Visitor σ) (s : σ),
      visit_fn_input_list v x s = applyEvents v s (visit_fn_input_list recorder x []) := by
  cases x with
  | nil =>
    intro σ v s
    rw [visit_fn_input_list, visit_fn_input_list]
    rfl
  | cons i rest =>
    cases i with
    | mk n ty =>
      intro σ v s
      rw [visit_fn_input_list, visit_fn_input_list]
      exact events_comp (visit_type_events ty) (visit_fn_input_list_events rest) σ v s

/-- Bridge for `visit_generics`. -/
theorem visit_generics_events (x : Generics) :
    ∀ (σ : Type) (v : Visitor σ) (s : σ),
      visit_generics v x s = applyEvents v s (visit_generics recorder x []) := by
  cases x with
  | mk params wps =>
    intro σ v s
    rw [visit_generics, visit_generics]
    exact events_comp (visit_generic_param_def_list_events params)
      (visit_where_predicate_list_events wps) σ v s

/-- Bridge for the loops over `GenericParamDef` lists. -/
theorem visit_generic_param_def_list_events (x : List GenericParamDef) :
    ∀ (σ : Type) (v : Visitor σ) (s : σ),
      visit_generic_param_def_list v x s =
        applyEvents v s (visit_generic_param_def_list recorder x []) := by
  cases x with
  | nil =>
    intro σ v s
    rw [visit_generic_param_def_list, visit_generic_param_def_list]
    rfl
  | cons p rest =>
    intro σ v s
    rw [visit_generic_param_def_list, visit_generic_param_def_list]
    exact events_comp (visit_generic_param_def_events p)
      (visit_generic_param_def_list_events rest) σ v s

/-- Bridge for `visit_generic_param_def`. -/
theorem visit_generic_param_def_events (x : GenericParamDef) :
    ∀ (σ : Type) (v : Visitor σ) (s : σ),
      visit_generic_param_def v x s =
        applyEvents v s (visit_generic_param_def recorder x []) := by
  cases x with
  | mk n kind =>
    intro σ v s
    rw [visit_generic_param_def, visit_generic_param_def]
    exact visit_generic_param_def_kind_events kind σ v s

/-- Bridge for the loop over `WherePredicate` lists. -/
theorem visit_where_predicate_list_events (x : List WherePredicate) :
    ∀ (σ : Type) (v : Visitor σ) (s : σ),
      visit_where_predicate_list v x s =
        applyEvents v s (visit_where_predicate_list recorder x []) := by
  cases x with
  | nil =>
    intro σ v s
    rw [visit_where_predicate_list, visit_where_predicate_list]
    rfl
  | cons p rest =>
    intro σ v s
    rw [visit_where_predicate_list, visit_where_predicate_list]
    exact events_comp (visit_where_predicate_events p)
      (visit_where_predicate_list_events rest) σ v s

/-- Bridge for `visit_where_predicate`. -/
theorem visit_where_predicate_events (x : WherePredicate) :
    ∀ (σ : Type) (v : Visitor σ) (s : σ),
      visit_where_predicate v x s =
        applyEvents v s (visit_where_predicate recorder x []) := by
  cases x with
  | BoundPredicate type_ bounds gps =>
    intro σ v s
    rw [visit_where_predicate, visit_where_predicate]
    exact events_comp
      (events_comp (visit_type_events type_) (visit_generic_bound_list_events bounds))
      (visit_generic_param_def_list_events gps) σ v s
  | EqPredicate lhs rhs =>
    intro σ v s
    rw [visit_where_predicate, visit_where_predicate]
    exact events_comp (visit_type_events lhs) (visit_term_events rhs) σ v s
  | LifetimePredicate lt out =>
    intro σ v s
    rw [visit_where_predicate, visit_where_predicate]
    rfl

/-- Bridge for `visit_generic_param_def_kind`. -/
theorem visit_generic_param_def_kind_events (x : GenericParamDefKind) :
    ∀ (σ : Type) (v : Visitor σ) (s : σ),
      visit_generic_param_def_kind v x s =
        applyEvents v s (visit_generic_param_def_kind recorder x []) := by
  cases x with
  | Lifetime out =>
    intro σ v s
    rw [visit_generic_param_def_kind, visit_generic_param_def_kind]
    rfl
  | TypeParam syn bounds default =>
    intro σ v s
    rw [visit_generic_param_def_kind, visit_generic_param_def_kind]
    exact events_comp (visit_generic_bound_list_events bounds)
      (visit_type_opt_events default) σ v s
  | Const type_ default =>
    intro σ v s
    rw [visit_generic_param_def_kind, visit_generic_param_def_kind]
    exact visit_type_events type_ σ v s

/-- Bridge for the loops over `GenericBound` lists. -/
theorem visit_generic_bound_list_events (x : List GenericBound) :
    ∀ (σ : Type) (v : Visitor σ) (s : σ),
      visit_generic_bound_list v x s =
        applyEvents v s (visit_generic_bound_list recorder x []) := by
  cases x with
  | nil =>
    intro σ v s
    rw [visit_generic_bound_list, visit_generic_bound_list]
    rfl
  | cons b rest =>
    intro σ v s
    rw [visit_generic_bound_list, visit_generic_bound_list]
    exact events_comp (visit_generic_bound_events b)
      (visit_generic_bound_list_events rest) σ v s

/-- Bridge for `visit_generic_bound`. -/
theorem visit_generic_bound_events (x : GenericBound) :
    ∀ (σ : Type) (v : Visitor σ) (s : σ),
      visit_generic_bound v x s =
        applyEvents v s (visit_generic_bound recorder x []) := by
  cases x with
  | TraitBound trait_ gps m =>
    intro σ v s
    rw [visit_generic_bound, visit_generic_bound]
    exact events_comp (visit_path_events trait_)
      (visit_generic_param_def_list_events gps) σ v s
  | Outlives lt =>
    intro σ v s
    rw [visit_generic_bound, visit_generic_bound]
    rfl
  | UseBound names =>
    intro σ v s
    rw [visit_generic_bound, visit_generic_bound]
    rfl

/-- Bridge for `visit_term`. -/
theorem visit_term_events (x : Term) :
    ∀ (σ : Type) (v : Visitor σ) (s : σ),
      visit_term v x s = applyEvents v s (visit_term recorder x []) := by
  cases x with
  | TypeTerm type_ =>
    intro σ v s
    rw [visit_term, visit_term]
    exact visit_type_events type_ σ v s
  | Constant c =>
    intro σ v s
    rw [visit_term, visit_term]
    rfl

/-- Bridge for `visit_path`. -/
theorem visit_path_events (x : Path) :
    ∀ (σ : Type) (v : Visitor σ) (s : σ),
      visit_path v x s = applyEvents v s (visit_path recorder x []) := by
  cases x with
  | mk p i args =>
    intro σ v s
    rw [visit_path, visit_path]
    exact events_comp (hook_path_events (.mk p i args))
      (visit_generic_args_opt_events args) σ v s

/-- Bridge for the `if let Some(args)` pattern. -/
theorem visit_generic_args_opt_events (x : Option GenericArgs) :
    ∀ (σ : Type) (v : Visitor σ) (s : σ),
      visit_generic_args_opt v x s =
        applyEvents v s (visit_generic_args_opt recorder x []) := by
  cases x with
  | none =>
    intro σ v s
    rw [visit_generic_args_opt, visit_generic_args_opt]
    rfl
  | some args =>
    intro σ v s
    rw [visit_generic_args_opt, visit_generic_args_opt]
    exact visit_generic_args_events args σ v s

/-- Bridge for `visit_generic_args`. -/
theorem visit_generic_args_events (x : GenericArgs) :
    ∀ (σ : Type) (v : Visitor σ) (s : σ),
      visit_generic_args v x s = applyEvents v s (visit_generic_args recorder x []) := by
  cases x with
  | AngleBracketed args constraints =>
    intro σ v s
    rw [visit_generic_args, visit_generic_args]
    exact events_comp (visit_generic_arg_list_events args)
      (visit_assoc_item_constraint_list_events constraints) σ v s
  | Parenthesized inputs output =>
    intro σ v s
    rw [visit_generic_args, visit_generic_args]
    exact events_comp (visit_type_list_events inputs)
      (visit_type_opt_events output) σ v s
  | ReturnTypeNotated =>
    intro σ v s
    rw [visit_generic_args, visit_generic_args]
    rfl

/-- Bridge for the loop over `GenericArg` lists. -/
theorem visit_generic_arg_list_events (x : List GenericArg) :
    ∀ (σ : Type) (v : Visitor σ) (s : σ),
      visit_generic_arg_list v x s =
        applyEvents v s (visit_generic_arg_list recorder x []) := by
  cases x with
  | nil =>
    intro σ v s
    rw [visit_generic_arg_list, visit_generic_arg_list]
    rfl
  | cons a rest =>
    intro σ v s
    rw [visit_generic_arg_list, visit_generic_arg_list]
    exact events_comp (visit_generic_arg_events a)
      (visit_generic_arg_list_events rest) σ v s

/-- Bridge for the loop over `AssocItemConstraint` lists. -/
theorem visit_assoc_item_constraint_list_events (x : List AssocItemConstraint) :
    ∀ (σ : Type) (v : Visitor σ) (s : σ),
      visit_assoc_item_constraint_list v x s =
        applyEvents v s (visit_assoc_item_constraint_list recorder x []) := by
  cases x with
  | nil =>
    intro σ v s
    rw [visit_assoc_item_constraint_list, visit_assoc_item_constraint_list]
    rfl
  | cons c rest =>
    intro σ v s
    rw [visit_assoc_item_constraint_list, visit_assoc_item_constraint_list]
    exact events_comp (visit_assoc_item_constraint_events c)
      (visit_assoc_item_constraint_list_events rest) σ v s

/-- Bridge for `visit_assoc_item_constraint`. -/
theorem visit_assoc_item_constraint_events (x : AssocItemConstraint) :
    ∀ (σ : Type) (v : Visitor σ) (s : σ),
      visit_assoc_item_constraint v x s =
        applyEvents v s (visit_assoc_item_constraint recorder x []) := by
  cases x with
  | mk n args binding =>
    intro σ v s
    rw [visit_assoc_item_constraint, visit_assoc_item_constraint]
    exact events_comp (visit_generic_args_opt_events args)
      (visit_assoc_item_constraint_kind_events binding) σ v s

/-- Bridge for `visit_assoc_item_constraint_kind`. -/
theorem visit_assoc_item_constraint_kind_events (x : AssocItemConstraintKind) :
    ∀ (σ : Type) (v : Visitor σ) (s : σ),
      visit_assoc_item_constraint_kind v x s =
        applyEvents v s (visit_assoc_item_constraint_kind recorder x []) := by
  cases x with
  | Equality term =>
    intro σ v s
    rw [visit_assoc_item_constraint_kind, visit_assoc_item_constraint_kind]
    exact visit_term_events term σ v s
  | Constraint bounds =>
    intro σ v s
    rw [visit_assoc_item_constraint_kind, visit_assoc_item_constraint_kind]
    exact visit_generic_bound_list_events bounds σ v s

/-- Bridge for `visit_generic_arg`. -/
theorem visit_generic_arg_events (x : GenericArg) :
    ∀ (σ : Type) (v : Visitor σ) (s : σ),
      visit_generic_arg v x s = applyEvents v s (visit_generic_arg recorder x []) := by
  cases x with
  | Lifetime lt =>
    intro σ v s
    rw [visit_generic_arg, visit_generic_arg]
    rfl
  | TypeArg type_ =>
    intro σ v s
    rw [visit_generic_arg, visit_generic_arg]
    exact visit_type_events type_ σ v s
  | Const c =>
    intro σ v s
    rw [visit_generic_arg, visit_generic_arg]
    rfl
  | Infer =>
    intro σ v s
    rw [visit_generic_arg, visit_generic_arg]
    rfl

/-- Bridge for `visit_type`. -/
theorem visit_type_events (x : Ty) :
    ∀ (σ : Type) (v : Visitor σ) (s : σ),
      visit_type v x s = applyEvents v s (visit_type recorder x []) := by
  cases x with
  | ResolvedPath path =>
    intro σ v s
    rw [visit_type, visit_type]
    exact visit_path_events path σ v s
  | DynTrait dt =>
    intro σ v s
    rw [visit_type, visit_type]
    exact visit_dyn_trait_events dt σ v s
  | Generic n =>
    intro σ v s
    rw [visit_type, visit_type]
    rfl
  | Primitive n =>
    intro σ v s
    rw [visit_type, visit_type]
    rfl
  | FunctionPointer fp =>
    intro σ v s
    rw [visit_type, visit_type]
    exact visit_function_pointer_events fp σ v s
  | Tuple types =>
    intro σ v s
    rw [visit_type, visit_type]
    exact visit_type_list_events types σ v s
  | Slice type_ =>
    intro σ v s
    rw [visit_type, visit_type]
    exact visit_type_events type_ σ v s
  | Array type_ len =>
    intro σ v s
    rw [visit_type, visit_type]
    exact visit_type_events type_ σ v s
  | ImplTrait bounds =>
    intro σ v s
    rw [visit_type, visit_type]
    exact visit_generic_bound_list_events bounds σ v s
  | Infer =>
    intro σ v s
    rw [visit_type, visit_type]
    rfl
  | RawPointer m type_ =>
    intro σ v s
    rw [visit_type, visit_type]
    exact visit_type_events type_ σ v s
  | BorrowedRef m lt type_ =>
    intro σ v s
    rw [visit_type, visit_type]
    exact visit_type_events type_ σ v s
  | QualifiedPath n args self_type trait_ =>
    intro σ v s
    rw [visit_type, visit_type]
    exact events_comp
      (events_comp (visit_generic_args_opt_events args) (visit_type_events self_type))
      (visit_path_opt_events trait_) σ v s
  | Pat type_ pat =>
    intro σ v s
    rw [visit_type, visit_type]
    exact visit_type_events type_ σ v s

/-- Bridge for the loops over `Ty` lists. -/
theorem visit_type_list_events (x : List Ty) :
    ∀ (σ : Type) (v : Visitor σ) (s : σ),
      visit_type_list v x s = applyEvents v s (visit_type_list recorder x []) := by
  cases x with
  | nil =>
    intro σ v s
    rw [visit_type_list, visit_type_list]
    rfl
  | cons t rest =>
    intro σ v s
    rw [visit_type_list, visit_type_list]
    exact events_comp (visit_type_events t) (visit_type_list_events rest) σ v s

/-- Bridge for the `if let Some(type_)` pattern. -/
theorem visit_type_opt_events (x : Option Ty) :
    ∀ (σ : Type) (v : Visitor σ) (s : σ),
      visit_type_opt v x s = applyEvents v s (visit_type_opt recorder x []) := by
  cases x with
  | none =>
    intro σ v s
    rw [visit_type_opt, visit_type_opt]
    rfl
  | some t =>
    intro σ v s
    rw [visit_type_opt, visit_type_opt]
    exact visit_type_events t σ v s

/-- Bridge for the `if let Some(trait_)` pattern. -/
theorem visit_path_opt_events (x : Option Path) :
    ∀ (σ : Type) (v : Visitor σ) (s : σ),
      visit_path_opt v x s = applyEvents v s (visit_path_opt recorder x []) := by
  cases x with
  | none =>
    intro σ v s
    rw [visit_path_opt, visit_path_opt]
    rfl
  | some p =>
    intro σ v s
    rw [visit_path_opt, visit_path_opt]
    exact visit_path_events p σ v s

/-- Bridge for `visit_function_pointer`. -/
theorem visit_function_pointer_events (x : FunctionPointerTy) :
    ∀ (σ : Type) (v : Visitor σ) (s : σ),
      visit_function_pointer v x s =
        applyEvents v s (visit_function_pointer recorder x []) := by
  cases x with
  | mk sig gps h =>
    intro σ v s
    rw [visit_function_pointer, visit_function_pointer]
    exact events_comp (visit_fn_sig_events sig)
      (visit_generic_param_def_list_events gps) σ v s

/-- Bridge for `visit_dyn_trait`. -/
theorem visit_dyn_trait_events (x : DynTraitTy) :
    ∀ (σ : Type) (v : Visitor σ) (s : σ),
      visit_dyn_trait v x s = applyEvents v s (visit_dyn_trait recorder x []) := by
  cases x with
  | mk traits lt =>
    intro σ v s
    rw [visit_dyn_trait, visit_dyn_trait]
    exact visit_poly_trait_list_events traits σ v s

/-- Bridge for the loop over `PolyTrait` lists. -/
theorem visit_poly_trait_list_events (x : List PolyTrait) :
    ∀ (σ : Type) (v : Visitor σ) (s : σ),
      visit_poly_trait_list v x s =
        applyEvents v s (visit_poly_trait_list recorder x []) := by
  cases x with
  | nil =>
    intro σ v s
    rw [visit_poly_trait_list, visit_poly_trait_list]
    rfl
  | cons t rest =>
    intro σ v s
    rw [visit_poly_trait_list, visit_poly_trait_list]
    exact events_comp (visit_poly_trait_events t)
      (visit_poly_trait_list_events rest) σ v s

/-- Bridge for `visit_poly_trait`. -/
theorem visit_poly_trait_events (x : PolyTrait) :
    ∀ (σ : Type) (v : Visitor σ) (s : σ),
      visit_poly_trait v x s = applyEvents v s (visit_poly_trait recorder x []) := by
  cases x with
  | mk trait_ gps =>
    intro σ v s
    rw [visit_poly_trait, visit_poly_trait]
    exact events_comp (visit_path_events trait_)
      (visit_generic_param_def_list_events gps) σ v s

end

/-- Field accessor for `FnInput`. -/
def FnInput.type_ : FnInput → Ty
  | .mk _ t => t

/-- The input-list loop of `visit_fn_sig`, run on the recorder, records the
concatenation of each input type's own trace, in declaration order. -/
theorem visit_fn_input_list_trace (inputs : List FnInput) :
    visit_fn_input_list recorder inputs [] =
      (inputs.map fun i => visit_type recorder i.type_ []).flatten := by
  induction inputs with
  | nil => simp [visit_fn_input_list]
  | cons i rest ih =>
    cases i with
    | mk n t =>
      rw [visit_fn_input_list,
        visit_fn_input_list_events rest (List Event) recorder (visit_type recorder t []),
        applyEvents_recorder, ih]
      simp [FnInput.type_]

/-- A sanity check on a whole function item: a signature with one input of
type `A` and output `B<C>` yields exactly the trace `A, B, C`, in pre-order. -/
example :
    visit_item recorder
      ⟨0, 0, some "f",
        .Function
          ⟨⟨false, [.mk "x" (.ResolvedPath (.mk "A" 1 none))],
             some (.ResolvedPath (.mk "B" 2
               (some (.AngleBracketed [.TypeArg (.ResolvedPath (.mk "C" 3 none))] []))))⟩,
           ⟨[], []⟩, "", true⟩⟩ [] =
      some [Event.onPath (.mk "A" 1 none),
        Event.onPath (.mk "B" 2
          (some (.AngleBracketed [.TypeArg (.ResolvedPath (.mk "C" 3 none))] []))),
        Event.onPath (.mk "C" 3 none)] := rfl

/-- C1: dispatching an item of the unsupported foreign-type kind
(`ItemEnum::ExternType`) aborts fatally (`todo!()`, modelled as `none`) for
every visitor and every starting state: it never returns normally and never
yields a partial result. -/
theorem claim_C1 (σ : Type) (v : Visitor σ) (s : σ) (id crate_id : Nat)
    (name : Option String) :
    visit_item v ⟨id, crate_id, name, ItemEnum.ExternType⟩ s = none := rfl

/-- C2: for every visitor, walking a path first invokes the `visit_path` hook
on the path itself and only then replays the events of its attached generic
arguments (if any): the run equals replaying a trace whose head is the path's
own hook event, followed by the generic-arguments trace (pre-order, at least
one hook call per visited path occurrence). -/
theorem claim_C2 (σ : Type) (v : Visitor σ) (s : σ) (nm : String) (i : Id)
    (args : Option GenericArgs) :
    visit_path v (.mk nm i args) s =
      applyEvents v s
        (Event.onPath (.mk nm i args) :: visit_generic_args_opt recorder args []) := by
  have h : visit_path recorder (.mk nm i args) [] =
      Event.onPath (.mk nm i args) :: visit_generic_args_opt recorder args [] := by
    rw [visit_path,
      visit_generic_args_opt_events args (List Event) recorder
        (recorder.visit_path [] (.mk nm i args)),
      applyEvents_recorder]
    rfl
  rw [visit_path_events (.mk nm i args) σ v s, h]

/-- C3: an `Impl` whose blanket-impl provenance marker is set is skipped
entirely: for every visitor and state, visiting it returns the state
unchanged — zero hook calls — regardless of its generics, trait path, or
self type. -/
theorem claim_C3 (σ : Type) (v : Visitor σ) (s : σ) (u n syn : Bool)
    (g : Generics) (ptm : List String) (tr : Option Path) (fo : Ty)
    (its : List Id) (b : Ty) :
    visit_impl v ⟨u, n, syn, g, ptm, tr, fo, its, some b⟩ s = s := rfl

/-- C4: every inert item kind (module, enum-variant, extern-crate, primitive,
procedural-macro, declarative-macro) produces zero hook calls and returns
successfully: for every visitor and state, `visit_item` returns `some` of the
unchanged state (in particular, the recorder's trace stays empty). -/
theorem claim_C4 (σ : Type) (v : Visitor σ) (s : σ) (id cid : Nat)
    (nm : Option String) :
    (∀ m : ModuleItem, visit_item v ⟨id, cid, nm, .Module m⟩ s = some s)
    ∧ (∀ vr : VariantItem, visit_item v ⟨id, cid, nm, .Variant vr⟩ s = some s)
    ∧ (∀ (n : String) (r : Option String),
        visit_item v ⟨id, cid, nm, .ExternCrate n r⟩ s = some s)
    ∧ (∀ p : PrimitiveItem, visit_item v ⟨id, cid, nm, .Primitive p⟩ s = some s)
    ∧ (∀ p : ProcMacroItem, visit_item v ⟨id, cid, nm, .ProcMacro p⟩ s = some s)
    ∧ (∀ m : String, visit_item v ⟨id, cid, nm, .Macro m⟩ s = some s) :=
  ⟨fun _ => rfl, fun _ => rfl, fun _ _ => rfl, fun _ => rfl, fun _ => rfl,
    fun _ => rfl⟩

/-- C5: a function signature is walked left to right: the recorded trace is
the concatenation of each input type's own trace, in declaration order,
followed by the optional output type's trace, with no interleaving; in
particular, for inputs `T1, T2` and output `T3`, it is exactly `T1`'s paths,
then `T2`'s, then `T3`'s. -/
theorem claim_C5 :
    (∀ (c : Bool) (inputs : List FnInput) (output : Option Ty),
      visit_fn_sig recorder ⟨c, inputs, output⟩ [] =
        (inputs.map fun i => visit_type recorder i.type_ []).flatten ++
          visit_type_opt recorder output [])
    ∧ (∀ (c : Bool) (n1 n2 : String) (T1 T2 T3 : Ty),
      visit_fn_sig recorder ⟨c, [⟨n1, T1⟩, ⟨n2, T2⟩], some T3⟩ [] =
        visit_type recorder T1 [] ++ visit_type recorder T2 [] ++
          visit_type recorder T3 []) := by
  refine ⟨fun c inputs output => ?_, fun c n1 n2 T1 T2 T3 => ?_⟩
  · rw [visit_fn_sig, visit_fn_input_list_trace inputs,
      visit_type_opt_events output (List Event) recorder
        ((inputs.map fun i => visit_type recorder i.type_ []).flatten),
      applyEvents_recorder]
  · rw [visit_fn_sig, visit_type_opt, visit_fn_input_list, visit_fn_input_list,
      visit_fn_input_list,
      visit_type_events T2 (List Event) recorder (visit_type recorder T1 []),
      applyEvents_recorder,
      visit_type_events T3 (List Event) recorder
        (visit_type recorder T1 [] ++ visit_type recorder T2 []),
      applyEvents_recorder]

/-- C6: a re-export item invokes the `visit_use` hook exactly once, with the
item's use payload, for every visitor; the recorder's trace for it is the
single re-export event, so no `visit_path` calls occur and the engine does not
descend into anything the re-export references. -/
theorem claim_C6 (σ : Type) (v : Visitor σ) (s : σ) (id cid : Nat)
    (nm : Option String) (u : UseItem) :
    visit_item v ⟨id, cid, nm, .Use u⟩ s = some (v.visit_use s u)
    ∧ visit_item recorder ⟨id, cid, nm, .Use u⟩ [] = some [Event.onReexport u] :=
  ⟨rfl, rfl⟩

/-- C7 counterexample: an inherent impl (no trait path) whose self type is the
primitive `u8`, but whose generics carry a type parameter bounded by the trait
path `Foo`, produces an `on_path` call — the claim's "zero `on_path` calls"
fails because the generics are walked and may themselves contain trait
paths. -/
theorem claim_C7_cex :
    visit_impl recorder
      (⟨false, false, false,
        ⟨[⟨"T", .TypeParam false [.TraitBound (.mk "Foo" 7 none) [] "none"] none⟩],
          []⟩,
        [], none, .Primitive "u8", [], none⟩ : Impl) [] =
      [Event.onPath (.mk "Foo" 7 none)] ∧
    ([Event.onPath (Path.mk "Foo" 7 none)] : List Event) ≠ [] :=
  ⟨rfl, by simp⟩

/-- C7 amended: visiting an inherent implementation (no trait path) whose self
type is a primitive, and which is not from a blanket impl, equals walking just
its generics, for every visitor: the trait position and the primitive self
type contribute no hook calls, so zero `on_path` calls occur exactly when the
generics themselves emit none (e.g. empty or lifetime-only generics). -/
theorem claim_C7 (σ : Type) (v : Visitor σ) (s : σ) (u n syn : Bool)
    (g : Generics) (ptm : List String) (prim : String) (its : List Id) :
    visit_impl v ⟨u, n, syn, g, ptm, none, .Primitive prim, its, none⟩ s =
      visit_generics v g s := rfl

/-- C8: lifetime-only leaves (outlives bounds, lifetime generic parameters,
lifetime where-predicates, lifetime generic arguments) and constant leaves
(constant generic arguments, constant terms, constant defaults of const
generic parameters) are never descended into — each returns the state
unchanged for every visitor — while the type of a const generic parameter is
still walked. -/
theorem claim_C8 (σ : Type) (v : Visitor σ) (s : σ) :
    (∀ lt, visit_generic_bound v (.Outlives lt) s = s)
    ∧ (∀ out, visit_generic_param_def_kind v (.Lifetime out) s = s)
    ∧ (∀ lt out, visit_where_predicate v (.LifetimePredicate lt out) s = s)
    ∧ (∀ lt, visit_generic_arg v (.Lifetime lt) s = s)
    ∧ (∀ c, visit_generic_arg v (.Const c) s = s)
    ∧ (∀ c, visit_term v (.Constant c) s = s)
    ∧ (∀ type_ default,
        visit_generic_param_def_kind v (.Const type_ default) s =
          visit_type v type_ s) :=
  ⟨fun _ => rfl, fun _ => rfl, fun _ _ => rfl, fun _ => rfl, fun _ => rfl,
    fun _ => rfl, fun _ _ => rfl⟩

/-- C9: the traversal always terminates on the inductive (hence finite and
acyclic) item tree: all walkers are total structural recursions, and for every
item whose kind is not the unsupported foreign-type kind, `visit_item` runs to
completion and returns a result for every visitor. -/
theorem claim_C9 (σ : Type) (v : Visitor σ) (s : σ) (item : Item)
    (h : item.inner ≠ ItemEnum.ExternType) :
    ∃ s', visit_item v item s = some s' := by
  obtain ⟨id, cid, nm, inner⟩ := item
  cases inner <;> first
  | exact absurd rfl h
  | exact ⟨_, rfl⟩

/-- C9 witness: the traversal of a concrete module item runs to completion. -/
theorem claim_C9_witness :
    ∃ s', visit_item recorder ⟨0, 0, none, .Module ⟨true, [], false⟩⟩ [] = some s' :=
  claim_C9 (List Event) recorder [] ⟨0, 0, none, .Module ⟨true, [], false⟩⟩
    (fun h => ItemEnum.noConfusion h)

/-- C10: the type walker recurses only into an array type's element type; the
length expression is never inspected and contributes no hook calls — the
result is the same for every length and every visitor. -/
theorem claim_C10 (σ : Type) (v : Visitor σ) (s : σ) (type_ : Ty)
    (len : ConstantExpr) :
    visit_type v (.Array type_ len) s = visit_type v type_ s := rfl

end Rustdoc
